import Mathlib

/-!
Shallow embedding of `verify_pr_lables.py` (a GitHub-Actions label gate).

The script reads six `sys.argv` entries (program name plus five arguments),
three environment variables, fetches one pull request through the GitHub API,
and then applies a sequence of label checks, terminating with `sys.exit(0)`
or `sys.exit(1)`.

Modelling conventions:
  * Python strings are Lean `String`s; all character-level operations
    (`str.lower`, `str.strip`, `str.split`, substring tests) are modelled
    for ASCII text, which is what the script's own literals and the
    specification's examples use.
  * The process environment is a function `String → Option String`
    (`os.environ.get` returns `None` exactly when the variable is unset).
  * The GitHub API is an external collaborator: fetching a pull request by
    number is an oracle `getPull : Int → PullRequest`.
  * A run's observable terminal behaviour is an `Outcome`:
    `failure m` is "print an error to stderr and `sys.exit(1)`",
    `success` is "print the confirmation and `sys.exit(0)`",
    `scriptEnd` is "fall off the end of the script" (process status 0),
    and `crash e` is an uncaught Python exception (traceback on stderr,
    process status 1).
-/

namespace VerifyPrLables

/-- Python exceptions that the embedded fragments can raise and that no
`try`/`except` in the script catches. -/
inductive PyExc where
  | attributeError
  | indexError
deriving DecidableEq

/-- Every distinct `print(..., file=sys.stderr)` message followed by
`sys.exit(1)` in the script, with the data interpolated into the message. -/
inductive ErrMsg where
  | badArgc
  | emptyToken
  | missingEnvVar (name : String)
  | badPrNumberInput (hint : String)
  | refExtraction (ref : String)
  | forkNotTarget
  | invalidLabelsPresent (labels : List String)
  | noValidLabel (validLabels : List String)
  | parityConflict (labels : List String)
  | forbiddenLabel (label : String)
deriving DecidableEq

/-- Terminal behaviour of one run of the script (see the module docstring). -/
inductive Outcome where
  | success
  | scriptEnd
  | failure (msg : ErrMsg)
  | crash (exc : PyExc)
deriving DecidableEq

/-- Process exit status of each outcome.  `sys.exit(0)` and falling off the
end of the script give status 0; `sys.exit(1)` gives 1; an uncaught Python
exception makes the interpreter exit with status 1. -/
def exitStatus : Outcome → Nat
  | Outcome.success => 0
  | Outcome.scriptEnd => 0
  | Outcome.failure _ => 1
  | Outcome.crash _ => 1

/-- The attributes of the fetched pull request that the script reads:
`pr.head.repo.full_name`, `pr.base.repo.full_name`, and the names of the
labels returned by `pr.get_labels()`. -/
structure PullRequest where
  headRepoFullName : String
  baseRepoFullName : String
  labels : List String
deriving DecidableEq

/-! ### ASCII models of the Python string operations used by the script -/

/-- Whitespace characters recognised by Python's `str.strip()` / `str.split()`
(ASCII part: space, tab, newline, carriage return, vertical tab, form feed). -/
def isPyWs (c : Char) : Bool :=
  c = ' ' || c = '\t' || c = '\n' || c = '\r' || c = '\x0b' || c = '\x0c'

/-- Python `str.strip()` on the character list: drop whitespace from both
ends. -/
def pyStripL (cs : List Char) : List Char :=
  ((cs.dropWhile isPyWs).reverse.dropWhile isPyWs).reverse

/-- Python `str.strip()`. -/
def pyStrip (s : String) : String := String.mk (pyStripL s.data)

/-- Python `str.lower()` (ASCII: uppercase letters mapped to lowercase). -/
def pyLower (s : String) : String := String.mk (s.data.map Char.toLower)

/-- Splitting at every comma, as Python `s.split(',')`: the accumulator holds
the current field reversed; an empty input yields one empty field. -/
def splitCommaGo (acc : List Char) : List Char → List (List Char)
  | [] => [acc.reverse]
  | c :: rest =>
      if c = ',' then acc.reverse :: splitCommaGo [] rest
      else splitCommaGo (c :: acc) rest

/-- Lines 54 and 58: `[label.strip() for label in sys.argv[k].split(',')]`. -/
def parseLabelList (s : String) : List String :=
  (splitCommaGo [] s.data).map (fun cs => String.mk (pyStripL cs))

/-- Python `str.split()` with no separator: split on whitespace runs,
discarding empty fields.  The accumulator holds the current word reversed. -/
def splitWsGo (acc : List Char) : List Char → List (List Char)
  | [] => if acc.isEmpty then [] else [acc.reverse]
  | c :: rest =>
      if isPyWs c then
        if acc.isEmpty then splitWsGo [] rest
        else acc.reverse :: splitWsGo [] rest
      else splitWsGo (c :: acc) rest

/-- Python `label.split()` (line 168). -/
def pySplitWs (s : String) : List String :=
  (splitWsGo [] s.data).map String.mk

/-- Substring test on character lists: `needle` occurs contiguously in the
list.  The empty needle occurs in every list, as in Python. -/
def listHasSub (needle : List Char) : List Char → Bool
  | [] => needle.isEmpty
  | c :: rest => needle.isPrefixOf (c :: rest) || listHasSub needle rest

/-- Python `needle in hay` for strings: contiguous-substring containment. -/
def pyInStr (needle hay : String) : Bool := listHasSub needle.data hay.data

/-- Python `xs[-1]` on a list: the last element, or an `IndexError` when the
list is empty. -/
def pyLastElem (xs : List String) : Except PyExc String :=
  match xs.getLast? with
  | none => Except.error PyExc.indexError
  | some x => Except.ok x

/-- Python attribute access `label.name` where `label` is a built-in `str`
value.  `str` defines no attribute `name`, so the lookup raises
`AttributeError` for every string.  (The script appends `label.name`, a
`str`, to `pr_valid_labels` at line 122, and then reads `label.name` again
from those `str` elements at line 155.) -/
def pyStrAttrName (_ : String) : Except PyExc String :=
  Except.error PyExc.attributeError

/-! ### Python `int(str)` (line 79) -/

/-- Digit tail of Python's integer literal grammar, after the first digit:
`(['_'] digit)*` — underscores are allowed only between digits.  The
accumulator carries the value of the digits consumed so far. -/
def pyIntLoop (acc : Nat) : List Char → Option Nat
  | [] => some acc
  | '_' :: c :: rest =>
      if c.isDigit then pyIntLoop (acc * 10 + (c.toNat - 48)) rest else none
  | ['_'] => none
  | c :: rest =>
      if c.isDigit then pyIntLoop (acc * 10 + (c.toNat - 48)) rest else none

/-- Python `int(s)` for a decimal string: surrounding whitespace stripped, an
optional sign, then `digit (['_'] digit)*` (ASCII digits).  `none` models the
`ValueError` that line 79's `try` block catches. -/
def pythonInt (s : String) : Option Int :=
  match pyStripL s.data with
  | '+' :: c :: rest =>
      if c.isDigit then (pyIntLoop (c.toNat - 48) rest).map Int.ofNat else none
  | '-' :: c :: rest =>
      if c.isDigit then (pyIntLoop (c.toNat - 48) rest).map (fun n => -(n : Int))
      else none
  | c :: rest =>
      if c.isDigit then (pyIntLoop (c.toNat - 48) rest).map Int.ofNat else none
  | [] => none

/-! ### `re.search('refs/pull/([0-9]+)/merge', github_ref)` (lines 89-90) -/

/-- The literal part of the pattern before the capture group. -/
def refPatHead : List Char := ("refs/pull/").data

/-- The literal part of the pattern after the capture group. -/
def refPatTail : List Char := ("/merge").data

/-- Numeric value of a list of decimal digits, as `int(group(1))`. -/
def digitsToNat (ds : List Char) : Nat :=
  ds.foldl (fun a c => a * 10 + (c.toNat - 48)) 0

/-- Attempt to match `refs/pull/([0-9]+)/merge` at the head of the character
list.  `[0-9]+` is greedy and the character after it must be `'/'`, so the
match at a given position is exactly: the literal head, a maximal nonempty
digit run, then the literal tail. -/
def matchPrAt (cs : List Char) : Option Nat :=
  if refPatHead.isPrefixOf cs then
    let rest := cs.drop refPatHead.length
    let ds := rest.takeWhile Char.isDigit
    let after := rest.dropWhile Char.isDigit
    if !ds.isEmpty && refPatTail.isPrefixOf after then some (digitsToNat ds)
    else none
  else none

/-- `re.search` scans left to right for the first position where the pattern
matches. -/
def searchPrGo : List Char → Option Nat
  | [] => none
  | c :: rest =>
      match matchPrAt (c :: rest) with
      | some n => some n
      | none => searchPrGo rest

/-- `int(re.search('refs/pull/([0-9]+)/merge', ref).group(1))`, with `none`
modelling the `AttributeError` (no match, `group` on `None`) that line 91's
`except` catches. -/
def searchPrRef (ref : String) : Option Nat := searchPrGo ref.data

/-! ### The script itself -/

/-- Lines 10-39, `get_env_var`: `os.environ.get` yields `None` exactly when
the variable is unset, and only `None` triggers the error message and
`sys.exit(1)`; any present value, the empty string included, is returned. -/
def get_env_var (env : String → Option String) (name : String) :
    Except ErrMsg String :=
  match env name with
  | none => Except.error (ErrMsg.missingEnvVar name)
  | some v => Except.ok v

/-- Lines 76-94: resolve the pull-request number.  On a
`pull_request_target` event the hint argument must parse as a Python `int`;
otherwise the number is extracted from `GITHUB_REF` by
`re.search('refs/pull/([0-9]+)/merge', ...)`. -/
def resolve_pr_number (eventName prNumberStr githubRef : String) :
    Except ErrMsg Int :=
  if eventName = "pull_request_target" then
    match pythonInt prNumberStr with
    | none => Except.error (ErrMsg.badPrNumberInput prNumberStr)
    | some n => Except.ok n
  else
    match searchPrRef githubRef with
    | none => Except.error (ErrMsg.refExtraction githubRef)
    | some n => Except.ok (Int.ofNat n)

/-- Lines 153-157: the loop over `pr_valid_labels` that sets
`parity_label_conflict`.  The loop variable `label` ranges over the `str`
elements of `pr_valid_labels`, and the condition reads `label.name.lower()`,
so the first iteration raises `AttributeError` (see `pyStrAttrName`).  The
first argument is the whole `pr_valid_labels` list, whose length the loop
body consults. -/
def parityLoopGo (allValid : List String) (conflict : Bool) :
    List String → Except PyExc Bool
  | [] => Except.ok conflict
  | label :: rest =>
      match pyStrAttrName label with
      | Except.error e => Except.error e
      | Except.ok nm =>
          if pyInStr "no parity" (pyLower nm) then
            parityLoopGo allValid (decide (allValid.length > 1)) rest
          else parityLoopGo allValid conflict rest

/-- Lines 166-171: the loop over `pr_valid_labels` that sets
`forbidden_label` to the last label whose final whitespace-separated word,
lowercased, occurs in the lowercased repository full name.  `label.split()`
on a `str` is well-typed here; `[-1]` raises `IndexError` on a label with no
words. -/
def forbiddenLoopGo (repoName : String) (forbidden : String) :
    List String → Except PyExc String
  | [] => Except.ok forbidden
  | label :: rest =>
      match pyLastElem (pySplitWs label) with
      | Except.error e => Except.error e
      | Except.ok lastWord =>
          if pyInStr (pyLower lastWord) (pyLower repoName) then
            forbiddenLoopGo repoName label rest
          else forbiddenLoopGo repoName forbidden rest

/-- Lines 110-188: the label evaluation.  `pr_valid_labels` and
`pr_invalid_labels` are built by one pass over the pull request's labels
(lines 120-124), which is the same as filtering by membership in each
configured list.  Then: the invalid-label check (135), the valid-label
presence check (146), the parity-conflict loop (153) — whose first iteration
raises `AttributeError` whenever `pr_valid_labels` is nonempty — the
forbidden-label loop (166), and the final confirmation (184-188). -/
def checkLabels (prLabels validLabels invalidLabels : List String)
    (repoName : String) : Outcome :=
  let prValidLabels := prLabels.filter (fun l => validLabels.contains l)
  let prInvalidLabels := prLabels.filter (fun l => invalidLabels.contains l)
  if prInvalidLabels ≠ [] then
    Outcome.failure (ErrMsg.invalidLabelsPresent prInvalidLabels)
  else if prValidLabels = [] then
    Outcome.failure (ErrMsg.noValidLabel validLabels)
  else
    match parityLoopGo prValidLabels false prValidLabels with
    | Except.error exc => Outcome.crash exc
    | Except.ok conflict =>
        if conflict then Outcome.failure (ErrMsg.parityConflict prValidLabels)
        else
          match forbiddenLoopGo repoName "" prValidLabels with
          | Except.error exc => Outcome.crash exc
          | Except.ok forbidden =>
              if forbidden ≠ "" then
                Outcome.failure (ErrMsg.forbiddenLabel forbidden)
              else if prInvalidLabels = [] ∧ prValidLabels ≠ [] then
                Outcome.success
              else Outcome.scriptEnd

/-- Lines 99-188, after the pull request has been fetched: the fork check
(103-107) — a pull request whose head repository differs from its base
repository is rejected unless the event is `pull_request_target` — followed
by the label evaluation. -/
def runOnPr (pr : PullRequest) (eventName : String)
    (validLabels invalidLabels : List String) (repoName : String) : Outcome :=
  if pr.headRepoFullName ≠ pr.baseRepoFullName ∧
      eventName ≠ "pull_request_target" then
    Outcome.failure ErrMsg.forkNotTarget
  else checkLabels pr.labels validLabels invalidLabels repoName

/-- The whole script.  `argv` is `sys.argv` (program name included), `env`
the process environment, `getPull` the GitHub API's pull-request lookup.
In order: the argument-count check (line 43), the empty-token check (49),
the label-list parsing (54, 58), the three environment reads (65-67), the
pull-request-number resolution (76-94), the fetch (99), and the rest. -/
def run (argv : List String) (env : String → Option String)
    (getPull : Int → PullRequest) : Outcome :=
  match argv with
  | [_, token, validCsv, invalidCsv, prNumberStr, _] =>
      if token = "" then Outcome.failure ErrMsg.emptyToken
      else
        let validLabels := parseLabelList validCsv
        let invalidLabels := parseLabelList invalidCsv
        match get_env_var env "GITHUB_REPOSITORY" with
        | Except.error e => Outcome.failure e
        | Except.ok repoName =>
            match get_env_var env "GITHUB_REF" with
            | Except.error e => Outcome.failure e
            | Except.ok githubRef =>
                match get_env_var env "GITHUB_EVENT_NAME" with
                | Except.error e => Outcome.failure e
                | Except.ok eventName =>
                    match resolve_pr_number eventName prNumberStr githubRef with
                    | Except.error e => Outcome.failure e
                    | Except.ok n =>
                        runOnPr (getPull n) eventName validLabels
                          invalidLabels repoName
  | _ => Outcome.failure ErrMsg.badArgc

/-- Environment holding exactly the three variables the script reads. -/
def stdEnv (repo ref ev : String) : String → Option String := fun name =>
  if name = "GITHUB_REPOSITORY" then some repo
  else if name = "GITHUB_REF" then some ref
  else if name = "GITHUB_EVENT_NAME" then some ev
  else none

/-- A sample same-repository pull request, for concrete evaluations. -/
def samplePull : PullRequest :=
  { headRepoFullName := "org/repo", baseRepoFullName := "org/repo",
    labels := ["no parity"] }

/-- A second sample pull request, used to vary the API oracle. -/
def samplePullB : PullRequest :=
  { headRepoFullName := "alt/repo", baseRepoFullName := "alt/repo",
    labels := [] }

/-! ### Helper lemmas -/

/-- The parity-conflict loop raises `AttributeError` on its first iteration
whenever it has at least one label to visit, because it reads `label.name`
on a `str` value. -/
theorem parityLoopGo_cons (allValid : List String) (b : Bool) (l : String)
    (rest : List String) :
    parityLoopGo allValid b (l :: rest) = Except.error PyExc.attributeError :=
  rfl

/-- Label evaluation always terminates the process with status 1: with an
invalid label or with no valid label it calls `sys.exit(1)`, and with at
least one valid label the parity loop's `label.name` raises
`AttributeError`, so the success exit at line 188 is unreachable. -/
theorem checkLabels_status (prLabels validLabels invalidLabels : List String)
    (repoName : String) :
    exitStatus (checkLabels prLabels validLabels invalidLabels repoName) = 1 := by
  unfold checkLabels
  by_cases hinv : prLabels.filter (fun l => invalidLabels.contains l) = []
  · rw [if_neg (not_not_intro hinv)]
    by_cases hval : prLabels.filter (fun l => validLabels.contains l) = []
    · rw [if_pos hval]; rfl
    · match hv : prLabels.filter (fun l => validLabels.contains l) with
      | [] => exact absurd hv hval
      | l :: rest => rfl
  · rw [if_pos hinv]; rfl

/-- With other than six `sys.argv` entries the script exits at line 45. -/
theorem run_badArgc (argv : List String) (h : argv.length ≠ 6)
    (env : String → Option String) (getPull : Int → PullRequest) :
    run argv env getPull = Outcome.failure ErrMsg.badArgc := by
  match argv with
  | [] => rfl
  | [_] => rfl
  | [_, _] => rfl
  | [_, _, _] => rfl
  | [_, _, _, _] => rfl
  | [_, _, _, _, _] => rfl
  | [_, _, _, _, _, _] => exact absurd rfl h
  | _ :: _ :: _ :: _ :: _ :: _ :: _ :: _ => rfl

/-- A six-element list is a six-tuple. -/
theorem argv_six (argv : List String) (h : argv.length = 6) :
    ∃ a b c d e f, argv = [a, b, c, d, e, f] := by
  match argv with
  | [a, b, c, d, e, f] => exact ⟨a, b, c, d, e, f, rfl⟩
  | [] | [_] | [_, _] | [_, _, _] | [_, _, _, _] | [_, _, _, _, _] => simp at h
  | _ :: _ :: _ :: _ :: _ :: _ :: _ :: rest => simp at h

/-- A run with six arguments, a nonempty token and the three standard
environment variables reduces to the pull-request-number resolution followed
by the post-fetch phase. -/
theorem run_spine (p t vcsv icsv hint fifth repo ref ev : String)
    (getPull : Int → PullRequest) (ht : t ≠ "") :
    run [p, t, vcsv, icsv, hint, fifth] (stdEnv repo ref ev) getPull =
      match resolve_pr_number ev hint ref with
      | Except.error e => Outcome.failure e
      | Except.ok n =>
          runOnPr (getPull n) ev (parseLabelList vcsv) (parseLabelList icsv)
            repo := by
  simp only [run]
  rw [if_neg ht]
  rfl

/-- Soundness of the anchored pattern match: a successful match at the head
of the list decomposes it as the literal head, a nonempty digit run, the
literal tail, and a remainder, and the returned number is the digits'
value. -/
theorem matchPrAt_sound {cs : List Char} {n : Nat}
    (h : matchPrAt cs = some n) :
    ∃ ds post, cs = refPatHead ++ (ds ++ (refPatTail ++ post)) ∧ ds ≠ [] ∧
      (∀ c ∈ ds, c.isDigit) ∧ n = digitsToNat ds := by
  unfold matchPrAt at h
  split at h
  case isFalse => exact absurd h (by simp)
  case isTrue hpre =>
    dsimp only at h
    split at h
    case isFalse => exact absurd h (by simp)
    case isTrue hcond =>
      obtain ⟨hne, htail⟩ := Bool.and_eq_true _ _ |>.mp hcond
      obtain ⟨t, ht⟩ := List.isPrefixOf_iff_prefix.mp hpre
      have hdrop : cs.drop refPatHead.length = t := by
        rw [← ht, List.drop_left]
      rw [hdrop] at h hne htail
      refine ⟨t.takeWhile Char.isDigit,
        (t.dropWhile Char.isDigit).drop refPatTail.length, ?_, ?_, ?_, ?_⟩
      · rw [← ht]
        congr 1
        rw [List.prefix_iff_eq_append.mp (List.isPrefixOf_iff_prefix.mp htail)]
        exact (List.takeWhile_append_dropWhile Char.isDigit t).symm
      · intro hc
        rw [hc] at hne
        simp at hne
      · intro c hc
        exact List.mem_takeWhile_imp hc
      · exact (Option.some_inj.mp h).symm

/-- Completeness of the anchored pattern match: a list that starts with the
literal head, a nonempty digit run and the literal tail is matched. -/
theorem matchPrAt_complete {ds post : List Char} (hds : ds ≠ [])
    (hdig : ∀ c ∈ ds, c.isDigit) :
    (matchPrAt (refPatHead ++ (ds ++ (refPatTail ++ post)))).isSome := by
  unfold matchPrAt
  rw [if_pos (List.isPrefixOf_iff_prefix.mpr ⟨_, rfl⟩)]
  dsimp only
  rw [List.drop_left]
  rw [List.takeWhile_append_of_pos hdig, List.dropWhile_append_of_pos hdig]
  have h1 : (refPatTail ++ post).takeWhile Char.isDigit = [] := rfl
  have h2 : (refPatTail ++ post).dropWhile Char.isDigit =
      refPatTail ++ post := rfl
  rw [h1, h2, List.append_nil]
  rw [if_pos]
  · rfl
  · refine Bool.and_eq_true _ _ |>.mpr ⟨?_, ?_⟩
    · simpa using hds
    · exact List.isPrefixOf_iff_prefix.mpr ⟨post, rfl⟩

/-- Soundness of the left-to-right scan: a successful search exhibits an
occurrence of the pattern somewhere in the list. -/
theorem searchPrGo_sound : ∀ (cs : List Char) (n : Nat),
    searchPrGo cs = some n →
    ∃ pre ds post, cs = pre ++ (refPatHead ++ (ds ++ (refPatTail ++ post))) ∧
      ds ≠ [] ∧ (∀ c ∈ ds, c.isDigit) ∧ n = digitsToNat ds
  | [], n, h => by simp [searchPrGo] at h
  | c :: rest, n, h => by
    rw [searchPrGo] at h
    split at h
    case h_1 m hm =>
      obtain ⟨ds, post, hdec, hne, hdig, hval⟩ :=
        matchPrAt_sound (hm.trans h)
      exact ⟨[], ds, post, by simpa using hdec, hne, hdig, hval⟩
    case h_2 hm =>
      obtain ⟨pre, ds, post, hdec, hne, hdig, hval⟩ :=
        searchPrGo_sound rest n h
      exact ⟨c :: pre, ds, post, by simp [hdec], hne, hdig, hval⟩

/-- Completeness of the left-to-right scan: if the pattern occurs anywhere
in the list, the search succeeds. -/
theorem searchPrGo_complete : ∀ (pre : List Char) {cs ds post : List Char},
    cs = pre ++ (refPatHead ++ (ds ++ (refPatTail ++ post))) → ds ≠ [] →
    (∀ c ∈ ds, c.isDigit) → (searchPrGo cs).isSome
  | [], cs, ds, post, hdec, hds, hdig => by
    subst hdec
    rw [List.nil_append]
    rw [show refPatHead ++ (ds ++ (refPatTail ++ post)) =
      'r' :: (("efs/pull/").data ++ (ds ++ (refPatTail ++ post))) from rfl]
    rw [searchPrGo]
    have := @matchPrAt_complete ds post hds hdig
    rw [show refPatHead ++ (ds ++ (refPatTail ++ post)) =
      'r' :: (("efs/pull/").data ++ (ds ++ (refPatTail ++ post))) from rfl]
      at this
    split
    · rfl
    · case h_2 hm => rw [hm] at this; exact absurd this (by simp)
  | c :: pre, cs, ds, post, hdec, hds, hdig => by
    subst hdec
    rw [List.cons_append, searchPrGo]
    split
    · rfl
    · exact searchPrGo_complete pre rfl hds hdig

/-! ### Claims -/

/-- Claim C1 (refuted; code bug): the claim says a run whose pull request
carries at least one valid label, no invalid label, no "no parity" conflict
and no self-referential label prints confirmation and exits with status 0 —
in particular a pull request whose only label is "no parity".  In fact any
run that reaches the label evaluation with at least one valid label raises
`AttributeError` at line 155 (`label.name` on a `str`), so the process dies
with a traceback and status 1: the cited failing input crashes, and label
evaluation exits with status 1 on every input whatsoever. -/
theorem c1_success_path_unreachable :
    run ["prog", "token", "no parity", "blocked", "1", "ignored"]
        (stdEnv "org/repo" "refs/pull/1/merge" "pull_request")
        (fun _ => samplePull) = Outcome.crash PyExc.attributeError ∧
    ∀ prLabels validLabels invalidLabels repoName,
      exitStatus (checkLabels prLabels validLabels invalidLabels repoName) =
        1 :=
  ⟨by decide, checkLabels_status⟩

/-- Claim C2 (refuted; code bug): the claim says a pull request whose valid
labels contain a "no parity" label together with another valid label is
reported as a conflict and exits with status 1.  The exit status is indeed 1,
but not through the conflict report: the loop that would detect the conflict
(line 155) raises `AttributeError` on its very first iteration, before the
conflict flag is ever computed or printed — second conjunct: the loop's first
step is already the exception. -/
theorem c2_parity_conflict_crashes_unreported :
    run ["prog", "token", "no parity,feature parity", "blocked", "2",
        "ignored"]
        (stdEnv "org/repo" "refs/pull/2/merge" "pull_request")
        (fun _ => { headRepoFullName := "org/repo",
                    baseRepoFullName := "org/repo",
                    labels := ["no parity", "feature parity"] }) =
      Outcome.crash PyExc.attributeError ∧
    parityLoopGo ["no parity", "feature parity"] false
        ["no parity", "feature parity"] = Except.error PyExc.attributeError :=
  ⟨by decide, rfl⟩

/-- Claim C3 (refuted; code bug): the claim says repository `org/widget`
with valid label "target widget" exits with status 1 through the
self-reference rule.  The run does exit with status 1, but by the
`AttributeError` crash at line 155, before the self-reference loop at lines
166-177 is ever reached; that loop (second conjunct) would indeed have
flagged "target widget" had control reached it. -/
theorem c3_self_reference_check_unreachable :
    run ["prog", "token", "target widget", "blocked", "3", "ignored"]
        (stdEnv "org/widget" "refs/pull/3/merge" "pull_request")
        (fun _ => { headRepoFullName := "org/widget",
                    baseRepoFullName := "org/widget",
                    labels := ["target widget"] }) =
      Outcome.crash PyExc.attributeError ∧
    forbiddenLoopGo "org/widget" "" ["target widget"] =
      Except.ok "target widget" :=
  ⟨by decide, rfl⟩

/-- Claim C4: in any run reaching label evaluation, if some pull-request
label is in the invalid list, the run fails with the invalid-labels message
— reporting exactly the offending names, before any later rule — and exit
status 1, whatever other labels are present. -/
theorem c4_invalid_label_fails
    (prLabels validLabels invalidLabels : List String) (repoName : String)
    (h : ∃ l ∈ prLabels, l ∈ invalidLabels) :
    checkLabels prLabels validLabels invalidLabels repoName =
      Outcome.failure (ErrMsg.invalidLabelsPresent
        (prLabels.filter (fun l => invalidLabels.contains l))) ∧
    exitStatus (checkLabels prLabels validLabels invalidLabels repoName) =
      1 := by
  have h1 : checkLabels prLabels validLabels invalidLabels repoName =
      Outcome.failure (ErrMsg.invalidLabelsPresent
        (prLabels.filter (fun l => invalidLabels.contains l))) := by
    unfold checkLabels
    have hne : prLabels.filter (fun l => invalidLabels.contains l) ≠ [] := by
      obtain ⟨l, hl, hmem⟩ := h
      intro hc
      rw [List.filter_eq_nil_iff] at hc
      exact hc l hl (List.elem_iff.mpr hmem)
    rw [if_pos hne]
  exact ⟨h1, by rw [h1]; rfl⟩

/-- Concrete instance of C4: a pull request labelled "blocked" with
invalid list ["blocked"] fails with the invalid-labels message. -/
theorem c4_invalid_label_fails_witness :
    checkLabels ["blocked"] ["ok"] ["blocked"] "org/repo" =
      Outcome.failure (ErrMsg.invalidLabelsPresent ["blocked"]) := by
  have h := c4_invalid_label_fails ["blocked"] ["ok"] ["blocked"] "org/repo"
    ⟨"blocked", by decide, by decide⟩
  exact h.1.trans (by decide)

/-- Claim C5: in any run reaching label evaluation with no invalid label
present, if no pull-request label is in the valid list, the run fails with
the message demanding at least one of the valid labels, and exit status 1. -/
theorem c5_no_valid_label_fails
    (prLabels validLabels invalidLabels : List String) (repoName : String)
    (hinv : ∀ l ∈ prLabels, l ∉ invalidLabels)
    (hval : ∀ l ∈ prLabels, l ∉ validLabels) :
    checkLabels prLabels validLabels invalidLabels repoName =
      Outcome.failure (ErrMsg.noValidLabel validLabels) ∧
    exitStatus (checkLabels prLabels validLabels invalidLabels repoName) =
      1 := by
  have h1 : checkLabels prLabels validLabels invalidLabels repoName =
      Outcome.failure (ErrMsg.noValidLabel validLabels) := by
    unfold checkLabels
    have hi : prLabels.filter (fun l => invalidLabels.contains l) = [] := by
      rw [List.filter_eq_nil_iff]
      intro a ha
      simpa using hinv a ha
    have hv : prLabels.filter (fun l => validLabels.contains l) = [] := by
      rw [List.filter_eq_nil_iff]
      intro a ha
      simpa using hval a ha
    rw [if_neg (not_not_intro hi), if_pos hv]
  exact ⟨h1, by rw [h1]; rfl⟩

/-- Concrete instance of C5: a pull request labelled "random" with valid
list ["a"] and invalid list ["b"] fails with the at-least-one-valid-label
message. -/
theorem c5_no_valid_label_fails_witness :
    checkLabels ["random"] ["a"] ["b"] "org/repo" =
      Outcome.failure (ErrMsg.noValidLabel ["a"]) :=
  (c5_no_valid_label_fails ["random"] ["a"] ["b"] "org/repo"
    (by decide) (by decide)).1

/-- Claim C6: once the pull request is fetched, if its head repository full
name differs from its base repository full name and the event is not
`pull_request_target`, the run fails with the fork policy message and exit
status 1 — for every label set, i.e. before any label evaluation. -/
theorem c6_fork_requires_target_event (pr : PullRequest) (eventName : String)
    (validLabels invalidLabels : List String) (repoName : String)
    (hfork : pr.headRepoFullName ≠ pr.baseRepoFullName)
    (hev : eventName ≠ "pull_request_target") :
    runOnPr pr eventName validLabels invalidLabels repoName =
      Outcome.failure ErrMsg.forkNotTarget ∧
    exitStatus (runOnPr pr eventName validLabels invalidLabels repoName) =
      1 := by
  have h1 : runOnPr pr eventName validLabels invalidLabels repoName =
      Outcome.failure ErrMsg.forkNotTarget := by
    unfold runOnPr
    rw [if_pos ⟨hfork, hev⟩]
  exact ⟨h1, by rw [h1]; rfl⟩

/-- Concrete instance of C6: a fork pull request under event
`pull_request` fails with the fork policy message. -/
theorem c6_fork_requires_target_event_witness :
    runOnPr
      { headRepoFullName := "fork/repo", baseRepoFullName := "org/repo",
        labels := ["ok"] } "pull_request" ["ok"] [] "org/repo" =
      Outcome.failure ErrMsg.forkNotTarget :=
  (c6_fork_requires_target_event _ _ _ _ _ (by decide) (by decide)).1

/-- Claim C7: with six arguments, a nonempty token and the three standard
environment variables, the pull-request number is resolved as follows.  On
event `pull_request_target` it is the Python-`int` parse of the hint
argument, and a non-parsing hint fails with the bad-number message; on any
other event it is the digit group found by scanning `GITHUB_REF` for
`refs/pull/<digits>/merge`, and absence of a match fails with the extraction
message.  The last two conjuncts characterise the embedded scan: it succeeds
exactly when the pattern occurs in the reference string, returning a digit
group of an occurrence. -/
theorem c7_pr_number_resolution (p t vcsv icsv hint fifth repo ref ev : String)
    (getPull : Int → PullRequest) (ht : t ≠ "") :
    (ev = "pull_request_target" →
      (pythonInt hint = none →
        run [p, t, vcsv, icsv, hint, fifth] (stdEnv repo ref ev) getPull =
          Outcome.failure (ErrMsg.badPrNumberInput hint)) ∧
      (∀ n, pythonInt hint = some n →
        run [p, t, vcsv, icsv, hint, fifth] (stdEnv repo ref ev) getPull =
          runOnPr (getPull n) ev (parseLabelList vcsv) (parseLabelList icsv)
            repo)) ∧
    (ev ≠ "pull_request_target" →
      (searchPrRef ref = none →
        run [p, t, vcsv, icsv, hint, fifth] (stdEnv repo ref ev) getPull =
          Outcome.failure (ErrMsg.refExtraction ref)) ∧
      (∀ n, searchPrRef ref = some n →
        run [p, t, vcsv, icsv, hint, fifth] (stdEnv repo ref ev) getPull =
          runOnPr (getPull (Int.ofNat n)) ev (parseLabelList vcsv)
            (parseLabelList icsv) repo)) ∧
    (∀ n, searchPrRef ref = some n →
      ∃ pre ds post,
        ref.data = pre ++ (refPatHead ++ (ds ++ (refPatTail ++ post))) ∧
        ds ≠ [] ∧ (∀ c ∈ ds, c.isDigit) ∧ n = digitsToNat ds) ∧
    ((∃ pre ds post,
        ref.data = pre ++ (refPatHead ++ (ds ++ (refPatTail ++ post))) ∧
        ds ≠ [] ∧ (∀ c ∈ ds, c.isDigit)) → (searchPrRef ref).isSome) := by
  refine ⟨?_, ?_, ?_, ?_⟩
  · intro hev
    constructor
    · intro hnone
      rw [run_spine p t vcsv icsv hint fifth repo ref ev getPull ht]
      unfold resolve_pr_number
      rw [if_pos hev, hnone]
    · intro n hn
      rw [run_spine p t vcsv icsv hint fifth repo ref ev getPull ht]
      unfold resolve_pr_number
      rw [if_pos hev, hn]
  · intro hev
    constructor
    · intro hnone
      rw [run_spine p t vcsv icsv hint fifth repo ref ev getPull ht]
      unfold resolve_pr_number
      rw [if_neg hev, hnone]
    · intro n hn
      rw [run_spine p t vcsv icsv hint fifth repo ref ev getPull ht]
      unfold resolve_pr_number
      rw [if_neg hev, hn]
  · intro n hn
    exact searchPrGo_sound ref.data n hn
  · rintro ⟨pre, ds, post, hdec, hds, hdig⟩
    exact searchPrGo_complete pre hdec hds hdig

/-- Concrete instance of C7: on `pull_request_target` with hint "7" the run
proceeds to the post-fetch phase with pull request number 7. -/
theorem c7_pr_number_resolution_witness :
    run ["prog", "token", "v", "i", "7", "ignored"]
        (stdEnv "org/repo" "refs/pull/9/merge" "pull_request_target")
        (fun _ => samplePull) =
      runOnPr samplePull "pull_request_target" (parseLabelList "v")
        (parseLabelList "i") "org/repo" := by
  have h := (c7_pr_number_resolution "prog" "token" "v" "i" "7" "ignored"
    "org/repo" "refs/pull/9/merge" "pull_request_target"
    (fun _ => samplePull) (by decide)).1 rfl
  exact h.2 7 rfl

/-- Claim C8: a run with other than six `sys.argv` entries, or with an empty
token argument, or with one of `GITHUB_REPOSITORY`, `GITHUB_REF`,
`GITHUB_EVENT_NAME` absent from the environment, fails with an error message
and exit status 1, without ever consulting the pull-request API (the outcome
is the same for every API oracle). -/
theorem c8_config_errors_fail_before_api (argv : List String)
    (env : String → Option String) (getPull getPull' : Int → PullRequest)
    (h : argv.length ≠ 6 ∨ argv.get? 1 = some "" ∨
      env "GITHUB_REPOSITORY" = none ∨ env "GITHUB_REF" = none ∨
      env "GITHUB_EVENT_NAME" = none) :
    (∃ m, run argv env getPull = Outcome.failure m) ∧
    exitStatus (run argv env getPull) = 1 ∧
    run argv env getPull = run argv env getPull' := by
  by_cases hlen : argv.length = 6
  · obtain ⟨a, b, c, d, e, f, rfl⟩ := argv_six argv hlen
    by_cases hb : b = ""
    · subst hb
      exact ⟨⟨_, rfl⟩, rfl, rfl⟩
    · have henv : env "GITHUB_REPOSITORY" = none ∨ env "GITHUB_REF" = none ∨
          env "GITHUB_EVENT_NAME" = none := by
        rcases h with h | h | h | h | h
        · exact absurd rfl h
        · exact absurd (by simpa using h) hb
        · exact Or.inl h
        · exact Or.inr (Or.inl h)
        · exact Or.inr (Or.inr h)
      simp only [run, if_neg hb]
      unfold get_env_var
      cases h1 : env "GITHUB_REPOSITORY" with
      | none => exact ⟨⟨_, rfl⟩, rfl, rfl⟩
      | some r =>
        cases h2 : env "GITHUB_REF" with
        | none => exact ⟨⟨_, rfl⟩, rfl, rfl⟩
        | some gr =>
          cases h3 : env "GITHUB_EVENT_NAME" with
          | none => exact ⟨⟨_, rfl⟩, rfl, rfl⟩
          | some ev => rcases henv with hx | hx | hx <;> simp_all
  · rw [run_badArgc argv hlen env getPull, run_badArgc argv hlen env getPull']
    exact ⟨⟨_, rfl⟩, rfl, rfl⟩

/-- Concrete instance of C8: a single-argument invocation fails with exit
status 1 under every API oracle. -/
theorem c8_config_errors_fail_before_api_witness :
    (∃ m, run ["prog"] (fun _ => some "x") (fun _ => samplePull) =
      Outcome.failure m) ∧
    exitStatus (run ["prog"] (fun _ => some "x") (fun _ => samplePull)) = 1 ∧
    run ["prog"] (fun _ => some "x") (fun _ => samplePull) =
      run ["prog"] (fun _ => some "x") (fun _ => samplePullB) :=
  c8_config_errors_fail_before_api ["prog"] (fun _ => some "x") _ _
    (Or.inl (by decide))

/-- Claim C9: two invocations that differ only in the fifth positional
argument (the sixth `sys.argv` entry) are indistinguishable: the script
counts it at line 43 and never reads it again, so the whole run is the same
function of the remaining inputs. -/
theorem c9_fifth_argument_unused (p t vcsv icsv hint x y : String)
    (env : String → Option String) (getPull : Int → PullRequest) :
    run [p, t, vcsv, icsv, hint, x] env getPull =
      run [p, t, vcsv, icsv, hint, y] env getPull := rfl

/-- Claim C10: `get_env_var` distinguishes an unset variable from one set to
the empty string: a variable set to `""` is returned as-is and the script
continues, and the missing-variable failure occurs exactly when the lookup
yields no value at all. -/
theorem c10_empty_env_value_accepted (env : String → Option String)
    (name : String) :
    (env name = some "" → get_env_var env name = Except.ok "") ∧
    (get_env_var env name = Except.error (ErrMsg.missingEnvVar name) ↔
      env name = none) := by
  constructor
  · intro h
    simp [get_env_var, h]
  · cases h : env name <;> simp [get_env_var, h]

/-- Concrete instance of C10: an environment in which every variable is set
to the empty string passes `get_env_var`. -/
theorem c10_empty_env_value_accepted_witness :
    get_env_var (fun _ => some "") "GITHUB_REF" = Except.ok "" :=
  (c10_empty_env_value_accepted (fun _ => some "") "GITHUB_REF").1 rfl

end VerifyPrLables
